import Mathlib

/-!
Shallow embedding of the live-tracing and debug-monitor subsystem of rod
(src/sugar.go, lines 820-1023): the Call Tracer (`tryTraceFn`, `tryTrace`,
`regHelperJS`), the Pacer (`trySlowmotion`), the Mouse Tracer
(`updateMouseTracer`), the Overlay Injector (`Overlay`, `Trace`) and the
Monitor Server (`ServeMonitor`).  Remote evaluation, logging and sleeping are
modelled as explicit effect values; fallible remote evaluations are `Except`
inputs; a Go runtime panic is `Option.none`.
-/

namespace Rod

/-- Modelled from the spec: JSON-like argument values handed to the tracer
(the repository's `Array` of `interface\x7b\x7d` values, serialized by
`mustToJSONForDev`, which is defined outside src/). -/
inductive JValue where
  | null
  | bool (b : Bool)
  | num (n : Int)
  | str (s : String)
  | arr (xs : List JValue)

mutual

/-- Modelled from the spec: `mustToJSONForDev` (defined outside src/)
serializes a value to a JSON-like compact textual form; per the spec's
example rendering, strings are double-quoted and sequence elements are
separated by a comma and a space. -/
def JValue.render : JValue → String
  | .null => "null"
  | .bool true => "true"
  | .bool false => "false"
  | .num n => toString n
  | .str s => "\"" ++ s ++ "\""
  | .arr xs => "[" ++ String.intercalate ", " (JValue.renderList xs) ++ "]"

/-- Serialization of a list of values, elementwise. -/
def JValue.renderList : List JValue → List String
  | [] => []
  | x :: xs => JValue.render x :: JValue.renderList xs

end

/-- Modelled from the spec: `mustToJSONForDev` applied to the whole argument
list (a JSON array), as `tryTraceFn` does at src/sugar.go:982. -/
def mustToJSONForDev (params : List JValue) : String :=
  "[" ++ String.intercalate ", " (JValue.renderList params) ++ "]"

/-- The cutset of Go `strings.Trim(s, "[]\r\n")` at src/sugar.go:982. -/
def inTrimCutset (c : Char) : Bool :=
  c = '[' || c = ']' || c = '\r' || c = '\n'

/-- Go `strings.Trim` with the cutset above, on a char list: remove all
leading and all trailing characters belonging to the cutset. -/
def listCutTrim (l : List Char) : List Char :=
  ((l.dropWhile inTrimCutset).reverse.dropWhile inTrimCutset).reverse

/-- Go `strings.Trim(s, "[]\r\n")` as used at src/sugar.go:982. -/
def goTrimBrackets (s : String) : String :=
  String.mk (listCutTrim s.data)

/-- Trim leading and trailing whitespace from a char list. -/
def trimWS (l : List Char) : List Char :=
  ((l.dropWhile Char.isWhitespace).reverse.dropWhile Char.isWhitespace).reverse

/-- Refinement reference, modelled from the spec's words (not from the code):
"strip a single leading `[` and trailing `]` (and surrounding whitespace)".
Compared against the code's `goTrimBrackets`. -/
def listStripOne (l : List Char) : List Char :=
  let t := trimWS l
  let t1 := if t.head? = some '[' then t.tail else t
  if t1.getLast? = some ']' then t1.dropLast else t1

/-- String wrapper of `listStripOne`. -/
def stripOneOuterPair (s : String) : String :=
  String.mk (listStripOne s.data)

/-- The literal part of `regHelperJS` preceding the `.+` of the capture
group: `\A\(rod, \.\.\.args\) => rod\.` (src/sugar.go:970). -/
def regHelperPre : List Char := "(rod, ...args) => rod.".data

/-- The literal part of `regHelperJS` following the capture group:
`\.apply\(this, ` (src/sugar.go:970). -/
def regHelperSuf : List Char := ".apply(this, ".data

/-- Greedy match of the `.+` inside the capture group of `regHelperJS`: the
largest `k ≥ 1` such that the first `k` characters contain no newline (Go
`.` does not match a newline) and are immediately followed by the literal
suffix `.apply(this, `. -/
def greedyDotPlus (rest : List Char) : Option Nat :=
  (List.range (rest.length + 1)).reverse.find? (fun k =>
    decide (1 ≤ k) && (rest.take k).all (fun c => c != '\n')
      && regHelperSuf.isPrefixOf (rest.drop k))

/-- Model of `regHelperJS.FindStringSubmatch js` (src/sugar.go:970,977):
`some g` gives the first capture group (`matches[1]`, the `(rod\..+)`
submatch, which keeps its `rod.` prefix); `none` means no match. -/
def regHelperJSMatch (s : String) : Option String :=
  if regHelperPre.isPrefixOf s.data then
    let rest := s.data.drop regHelperPre.length
    match greedyDotPlus rest with
    | some k => some (String.mk ("rod.".data ++ rest.take k))
    | none => none
  else none

/-- The unwrap step of `tryTraceFn` (src/sugar.go:977-981): on a regex match
the displayed source becomes the capture group and the first argument is
dropped.  `none` models the Go runtime panic of `params[1:]` on an empty
argument slice (slice bounds out of range). -/
def unwrapHelperCall (js : String) (params : List JValue) :
    Option (String × List JValue) :=
  match regHelperJSMatch js with
  | some g =>
    match params with
    | [] => none
    | _ :: rest => some (g, rest)
  | none => some (js, params)

/-- The textual form `js(paramsStr)` built by `tryTraceFn` /
`defaultTraceLogJS` (src/sugar.go:982,988,996-1001): the argument list is
serialized, the outer brackets are trimmed with cutset `[]\r\n`, and the
result is wrapped in parentheses after the displayed source. -/
def formatTracedCall (js : String) (params : List JValue) : String :=
  js ++ "(" ++ goTrimBrackets (mustToJSONForDev params) ++ ")"

/-- The rendered call text of a traced call: unwrap, then format.  `none`
models the panic of the unwrap step on an empty argument list. -/
def renderTracedCall (js : String) (params : List JValue) : Option String :=
  (unwrapHelperCall js params).map (fun p => formatTracedCall p.1 p.2)

/-- Observable side effects of the tracing helpers: a trace-log line, an
overlay draw (one remote evaluation), an overlay removal (one remote
evaluation), and a blocking sleep. -/
inductive Effect where
  | log (msg : String)
  | overlay (msg : String)
  | removeOverlay
  | sleep (d : Nat)

/-- The browser's tracing configuration (fields `trace`, `quiet`,
`slowmotion` read by src/sugar.go:950-990). -/
structure TraceCfg where
  trace : Bool
  quiet : Bool
  slowmotion : Nat

/-- Model of `Page.tryTraceFn` (src/sugar.go:972-990).  Returns the pair
(immediate effects, effects of the returned cleanup function); `none` models
the panic of `params[1:]` on an empty slice when the source matches.  The
on-page overlay caption wraps the rendered call in fixed markup with HTML
escaping; that wrapper is abstracted and the `overlay` effect carries the
rendered call text. -/
def tryTraceFn (cfg : TraceCfg) (js : String) (params : List JValue) :
    Option (List Effect × List Effect) :=
  if cfg.trace = false then some ([], []) else
  match unwrapHelperCall js params with
  | none => none
  | some p =>
    let msg := formatTracedCall p.1 p.2
    some ((if cfg.quiet then [] else [Effect.log msg]) ++ [Effect.overlay msg],
      [Effect.removeOverlay])

/-- Model of `Element.tryTrace` (src/sugar.go:958-968): when tracing is
disabled it returns a no-op cleanup with no effects; otherwise it logs the
message unless quiet and draws an element overlay whose cleanup removes it. -/
def tryTrace (cfg : TraceCfg) (msg : String) : List Effect × List Effect :=
  if cfg.trace = false then ([], []) else
  ((if cfg.quiet then [] else [Effect.log msg]) ++ [Effect.overlay msg],
    [Effect.removeOverlay])

/-- Model of `Browser.trySlowmotion` (src/sugar.go:950-956): the returned
list holds the blocking sleeps performed before returning. -/
def trySlowmotion (slowmotion : Nat) : List Effect :=
  if slowmotion = 0 then [] else [Effect.sleep slowmotion]

/-- An opaque error value returned by a failed remote evaluation. -/
structure Err where
  msg : String

/-- Model of `Mouse.updateMouseTracer` (src/sugar.go:1016-1023): the input
is the outcome of the remote evaluation, with the gjson boolean coercion of
the result value abstracted as the `Bool` payload of `Except.ok`. -/
def updateMouseTracer (res : Except Err Bool) : Bool :=
  match res with
  | .error _ => true
  | .ok b => b

/-- Model of `Page.Overlay` (src/sugar.go:896-919).  The input is the
outcome of the initial helper-script evaluation; the first component lists
the errors forwarded to the advisory sink `traceLogErr`, the second is the
returned remove capability: given the outcome of the removal evaluation it
returns the error it propagates to the caller (the code ignores both return
values of `EvalE`, so it is always `none`). -/
def Overlay (evalRes : Except Err Unit) : List Err × (Except Err Unit → Option Err) :=
  ((match evalRes with | .error e => [e] | .ok _ => ([] : List Err)), fun _ => none)

/-- Model of `Element.Trace` (src/sugar.go:929-947), structured exactly like
`Overlay`: initial-evaluation errors go to the advisory sink, and the remove
capability never propagates an error. -/
def Trace (evalRes : Except Err Unit) : List Err × (Except Err Unit → Option Err) :=
  ((match evalRes with | .error e => [e] | .ok _ => ([] : List Err)), fun _ => none)

/-- An HTTP response of the monitor server. -/
structure Response where
  status : Nat
  body : String

/-- Outcomes of the fail-fast external collaborators the monitor handlers
call: target list (`TargetGetTargets`), per-target info (`pageInfo`) and
screenshot capture; `Except.error` models the panic raised by `utils.E` /
the Must-style screenshot when the collaborator fails. -/
structure MonitorCollab where
  targets : Except String String
  pageInfo : String → Except String String
  screenshot : String → Except String String

/-- The routes registered by `ServeMonitor` (src/sugar.go:858-880). -/
inductive Route where
  | root
  | pages
  | page (id : String)
  | apiPage (id : String)
  | screenshot (id : String)

/-- The body of each monitor handler (src/sugar.go:858-880), before the
recovery middleware: an unrecovered failure (a panic of a fail-fast
collaborator) is the `Except.error` case carrying its description. -/
def routeHandler (c : MonitorCollab) : Route → Except String Response
  | .root => .ok ⟨200, "monitor.html"⟩
  | .pages => c.targets.map (fun t => ⟨200, t⟩)
  | .page _ => .ok ⟨200, "monitor-page.html"⟩
  | .apiPage id => (c.pageInfo id).map (fun i => ⟨200, i⟩)
  | .screenshot id => (c.screenshot id).map (fun s => ⟨200, s⟩)

/-- The recovery middleware installed by `ServeMonitor`
(src/sugar.go:850-857): a recovered panic becomes an HTTP 400 response
carrying the failure's description. -/
def withRecovery (r : Except String Response) : Response :=
  match r with
  | .ok resp => resp
  | .error m => ⟨400, m⟩

/-- One monitor request: the handler body run under the recovery
middleware. -/
def serveRequest (c : MonitorCollab) (r : Route) : Response :=
  withRecovery (routeHandler c r)

/-- Side effects of starting the monitor server. -/
inductive MonitorEffect where
  | bind (host : String)
  | useMiddleware
  | route (path : String)
  | goServe
  | goWatchCancel
  | openViewer

/-- The route paths registered by `ServeMonitor`, in registration order. -/
def monitorRoutePaths : List String :=
  ["/", "/pages", "/page/:id", "/api/page/:id", "/screenshot/:id"]

/-- Model of `Browser.ServeMonitor` (src/sugar.go:840-893): with an empty
host it returns the nil session immediately (src/sugar.go:841-843);
otherwise it binds a listener, installs the recovery middleware, registers
the five routes, starts the accept loop and the cancellation watcher, and,
when `openBrowser` is set, opens a viewer at the bound address. -/
def ServeMonitor (host : String) (openBrowser : Bool) :
    Option String × List MonitorEffect :=
  if host = "" then (none, [])
  else
    (some host,
      [MonitorEffect.bind host, MonitorEffect.useMiddleware]
        ++ monitorRoutePaths.map MonitorEffect.route
        ++ [MonitorEffect.goServe, MonitorEffect.goWatchCancel]
        ++ (if openBrowser then [MonitorEffect.openViewer] else []))

end Rod

namespace Rod

/-- Helper: `dropWhile` leaves a list unchanged when its head (if any) fails
the predicate. -/
theorem dropWhile_head_false (p : Char → Bool) (l : List Char)
    (h : ∀ c, l.head? = some c → p c = false) : l.dropWhile p = l := by
  cases l with
  | nil => rfl
  | cons a t => simp [List.dropWhile_cons, h a rfl]

/-- Helper: `dropWhile` drops a head satisfying the predicate. -/
theorem dropWhile_cons_true (p : Char → Bool) (a : Char) (l : List Char)
    (h : p a = true) : (a :: l).dropWhile p = l.dropWhile p := by
  simp [List.dropWhile_cons, h]

/-- Helper: whitespace trimming leaves a bracketed serialization unchanged. -/
theorem trimWS_bracketed (body : List Char) :
    trimWS ('[' :: body ++ [']']) = '[' :: body ++ [']'] := by
  have hhead : ∀ c, ('[' :: body ++ [']']).head? = some c →
      Char.isWhitespace c = false := by
    intro c hc
    rw [List.cons_append, List.head?_cons, Option.some.injEq] at hc
    rw [← hc]
    decide
  have hlast : ∀ c, (('[' :: body ++ [']']).reverse).head? = some c →
      Char.isWhitespace c = false := by
    intro c hc
    rw [List.head?_reverse, List.getLast?_concat, Option.some.injEq] at hc
    rw [← hc]
    decide
  unfold trimWS
  rw [dropWhile_head_false _ _ hhead, dropWhile_head_false _ _ hlast,
    List.reverse_reverse]

/-- Helper: the spec's one-outer-pair strip maps `[body]` to `body`. -/
theorem listStripOne_bracketed (body : List Char) :
    listStripOne ('[' :: body ++ [']']) = body := by
  unfold listStripOne
  rw [trimWS_bracketed, List.cons_append]
  simp [List.getLast?_concat, List.dropLast_concat]

/-- Helper: the code's cutset trim maps `[body]` to `body` whenever the
boundary characters of `body` are outside the cutset. -/
theorem listCutTrim_bracketed (body : List Char)
    (h1 : (body.head?.all fun c => !inTrimCutset c) = true)
    (h2 : (body.getLast?.all fun c => !inTrimCutset c) = true) :
    listCutTrim ('[' :: body ++ [']']) = body := by
  cases body with
  | nil => rfl
  | cons a bs =>
    have ha : inTrimCutset a = false := by
      simpa using h1
    have hlast : ∀ c, ((a :: bs).reverse).head? = some c →
        inTrimCutset c = false := by
      intro c hc
      rw [List.head?_reverse] at hc
      have h3 := h2
      rw [hc] at h3
      simpa using h3
    have hfront : ∀ c, (a :: (bs ++ [']'])).head? = some c →
        inTrimCutset c = false := by
      intro c hc
      rw [List.head?_cons, Option.some.injEq] at hc
      rw [← hc]
      exact ha
    unfold listCutTrim
    rw [List.cons_append, dropWhile_cons_true _ _ _ (by decide),
      List.cons_append, dropWhile_head_false _ _ hfront,
      ← List.cons_append, List.reverse_append, List.reverse_singleton,
      List.singleton_append, dropWhile_cons_true _ _ _ (by decide),
      dropWhile_head_false _ _ hlast, List.reverse_reverse]

/-- C1 (counterexample): on the claim's own example input the Call Tracer
keeps the `rod.` prefix of the regex capture group: the unwrapped source is
`rod.foo`, and the rendered call is not `foo("id1", "hello")`. -/
theorem C1_counterexample :
    (unwrapHelperCall "(rod, ...args) => rod.foo.apply(this, "
        [JValue.str "x", JValue.str "id1", JValue.str "hello"]).map Prod.fst
      = some "rod.foo"
    ∧ renderTracedCall "(rod, ...args) => rod.foo.apply(this, "
        [JValue.str "x", JValue.str "id1", JValue.str "hello"]
      ≠ some "foo(\"id1\", \"hello\")" := by
  constructor
  · decide
  · decide

/-- C1 (amended): for a traced call whose script source matches the
generated-wrapper pattern, the tracer replaces the displayed source with the
full regex capture (the `rod.`-prefixed member path) and drops the first
argument; in particular, for script source
`(rod, ...args) => rod.foo.apply(this, ` and arguments
`["x", "id1", "hello"]` the rendered call is `rod.foo("id1", "hello")`. -/
theorem C1_unwrap_amended (js g : String) (x : JValue) (rest : List JValue)
    (h : regHelperJSMatch js = some g) :
    renderTracedCall js (x :: rest) = some (formatTracedCall g rest)
    ∧ renderTracedCall "(rod, ...args) => rod.foo.apply(this, "
        [JValue.str "x", JValue.str "id1", JValue.str "hello"]
      = some "rod.foo(\"id1\", \"hello\")" := by
  refine ⟨?_, by decide⟩
  simp [renderTracedCall, unwrapHelperCall, h]

/-- C1 witness: the amended theorem instantiated at the claim's example. -/
theorem C1_unwrap_amended_witness :
    renderTracedCall "(rod, ...args) => rod.foo.apply(this, "
        [JValue.str "x", JValue.str "id1", JValue.str "hello"]
      = some (formatTracedCall "rod.foo" [JValue.str "id1", JValue.str "hello"])
    ∧ renderTracedCall "(rod, ...args) => rod.foo.apply(this, "
        [JValue.str "x", JValue.str "id1", JValue.str "hello"]
      = some "rod.foo(\"id1\", \"hello\")" :=
  C1_unwrap_amended "(rod, ...args) => rod.foo.apply(this, " "rod.foo"
    (JValue.str "x") [JValue.str "id1", JValue.str "hello"] (by decide)

/-- C2: for a traced call whose script source does not match the
generated-wrapper pattern, the tracer displays the raw source unchanged
followed by the full argument list; in particular, for source `n => n + 1`
and arguments `[1]` the rendered call is `n => n + 1(1)`. -/
theorem C2_raw_passthrough (js : String) (params : List JValue)
    (h : regHelperJSMatch js = none) :
    renderTracedCall js params
      = some (js ++ "(" ++ goTrimBrackets (mustToJSONForDev params) ++ ")")
    ∧ renderTracedCall "n => n + 1" [JValue.num 1] = some "n => n + 1(1)" := by
  refine ⟨?_, by decide⟩
  simp [renderTracedCall, unwrapHelperCall, h, formatTracedCall]

/-- C2 witness: the theorem instantiated at the claim's example. -/
theorem C2_raw_passthrough_witness :
    renderTracedCall "n => n + 1" [JValue.num 1]
      = some ("n => n + 1" ++ "("
          ++ goTrimBrackets (mustToJSONForDev [JValue.num 1]) ++ ")")
    ∧ renderTracedCall "n => n + 1" [JValue.num 1] = some "n => n + 1(1)" :=
  C2_raw_passthrough "n => n + 1" [JValue.num 1] (by decide)

/-- C3 (counterexample): for the single array argument `[1, 2]` the code's
cutset trim removes both nested leading/trailing brackets, so the printed
form is not the serialization minus a single outer bracket pair. -/
theorem C3_counterexample :
    goTrimBrackets (mustToJSONForDev [JValue.arr [JValue.num 1, JValue.num 2]])
      ≠ stripOneOuterPair
          (mustToJSONForDev [JValue.arr [JValue.num 1, JValue.num 2]]) := by
  decide

/-- C3 (amended): the tracer strips all leading and all trailing characters
drawn from the cutset `[`, `]`, CR, LF (Go strings.Trim semantics); this
coincides with stripping the single outer bracket pair exactly when the
serialized inner text is empty or its first and last characters lie outside
the cutset. -/
theorem C3_amended_cutset_trim (params : List JValue) (body : List Char)
    (hb : (mustToJSONForDev params).data = '[' :: body ++ [']'])
    (h1 : (body.head?.all fun c => !inTrimCutset c) = true)
    (h2 : (body.getLast?.all fun c => !inTrimCutset c) = true) :
    goTrimBrackets (mustToJSONForDev params)
      = stripOneOuterPair (mustToJSONForDev params) := by
  unfold goTrimBrackets stripOneOuterPair
  rw [hb, listCutTrim_bracketed body h1 h2, listStripOne_bracketed]

/-- C3 witness: the amended theorem instantiated at two string arguments. -/
theorem C3_amended_cutset_trim_witness :
    goTrimBrackets (mustToJSONForDev [JValue.str "a", JValue.str "b"])
      = stripOneOuterPair (mustToJSONForDev [JValue.str "a", JValue.str "b"]) :=
  C3_amended_cutset_trim [JValue.str "a", JValue.str "b"]
    ("\"a\", \"b\"").data (by decide) (by decide) (by decide)

/-- C4: when the tracing flag is disabled, both tracing entry points return
immediately with no effects (no log write, no remote evaluation) and a
no-op cleanup, for every script source and argument list. -/
theorem C4_disabled_no_effects (cfg : TraceCfg) (js msg : String)
    (params : List JValue) (h : cfg.trace = false) :
    tryTraceFn cfg js params = some ([], []) ∧ tryTrace cfg msg = ([], []) := by
  constructor <;> simp [tryTraceFn, tryTrace, h]

/-- C4 witness: the theorem at a disabled configuration. -/
theorem C4_disabled_no_effects_witness :
    tryTraceFn ⟨false, false, 0⟩ "n => n + 1" [JValue.num 1] = some ([], [])
    ∧ tryTrace ⟨false, false, 0⟩ "click" = ([], []) :=
  C4_disabled_no_effects ⟨false, false, 0⟩ "n => n + 1" "click"
    [JValue.num 1] rfl

/-- C5: the Mouse Tracer update returns the boolean of the remote
evaluation's result on success, and returns true (the degraded report)
rather than propagating the error when the evaluation fails. -/
theorem C5_update_mouse_tracer (b : Bool) (e : Err) :
    updateMouseTracer (Except.ok b) = b
    ∧ updateMouseTracer (Except.error e) = true := ⟨rfl, rfl⟩

/-- C6: the Pacer sleeps for the configured duration when it is positive,
and performs no sleep at all when the duration is zero. -/
theorem C6_pacer (d : Nat) (h : 0 < d) :
    trySlowmotion d = [Effect.sleep d] ∧ trySlowmotion 0 = [] := by
  refine ⟨?_, rfl⟩
  simp [trySlowmotion, Nat.pos_iff_ne_zero.mp h]

/-- C6 witness: the theorem at duration 1. -/
theorem C6_pacer_witness :
    trySlowmotion 1 = [Effect.sleep 1] ∧ trySlowmotion 0 = [] :=
  C6_pacer 1 (by decide)

/-- C7: starting the Monitor Server with an empty host returns the
empty/disabled session with no effects, for every value of the auto-open
flag. -/
theorem C7_empty_host_disabled (openBrowser : Bool) :
    ServeMonitor "" openBrowser = (none, []) := rfl

/-- C8: for both overlay Show operations, a failed initial evaluation is
forwarded exactly once to the advisory error sink while a remove capability
is still returned, and the remove capability discards every removal-
evaluation error, propagating nothing. -/
theorem C8_overlay_advisory (e : Err) (res r res2 r2 : Except Err Unit) :
    (Overlay (Except.error e)).1 = [e]
    ∧ (Trace (Except.error e)).1 = [e]
    ∧ (Overlay res).2 r = none
    ∧ (Trace res2).2 r2 = none := ⟨rfl, rfl, rfl, rfl⟩

/-- C9: every monitor route handler runs under the recovery middleware, so
any unrecovered failure inside a handler becomes an HTTP 400 response
carrying the failure's description. -/
theorem C9_failure_boundary (c : MonitorCollab) (r : Route) (m : String)
    (h : routeHandler c r = Except.error m) :
    serveRequest c r = ⟨400, m⟩ := by
  simp [serveRequest, withRecovery, h]

/-- C9 witness: a failing target-list collaborator yields a 400 response. -/
theorem C9_failure_boundary_witness :
    serveRequest
      ⟨Except.error "boom", fun _ => Except.ok "info", fun _ => Except.ok "png"⟩
      Route.pages = ⟨400, "boom"⟩ :=
  C9_failure_boundary
    ⟨Except.error "boom", fun _ => Except.ok "info", fun _ => Except.ok "png"⟩
    Route.pages "boom" rfl

/-- C10: with tracing enabled and a source matching the generated-wrapper
pattern, the tracer's first-argument drop is out of bounds (a Go panic,
modelled as none) on an empty argument list, and is defined on every
non-empty argument list. -/
theorem C10_matching_needs_arg (cfg : TraceCfg) (js g : String)
    (x : JValue) (rest : List JValue)
    (ht : cfg.trace = true) (h : regHelperJSMatch js = some g) :
    tryTraceFn cfg js [] = none
    ∧ ∃ out, tryTraceFn cfg js (x :: rest) = some out := by
  constructor
  · simp [tryTraceFn, ht, unwrapHelperCall, h]
  · refine ⟨((if cfg.quiet then [] else [Effect.log (formatTracedCall g rest)])
      ++ [Effect.overlay (formatTracedCall g rest)], [Effect.removeOverlay]), ?_⟩
    simp [tryTraceFn, ht, unwrapHelperCall, h]

/-- C10 witness: the theorem at the matching example source. -/
theorem C10_matching_needs_arg_witness :
    tryTraceFn ⟨true, true, 0⟩ "(rod, ...args) => rod.foo.apply(this, " [] = none
    ∧ ∃ out, tryTraceFn ⟨true, true, 0⟩
        "(rod, ...args) => rod.foo.apply(this, " [JValue.str "x"] = some out :=
  C10_matching_needs_arg ⟨true, true, 0⟩
    "(rod, ...args) => rod.foo.apply(this, " "rod.foo"
    (JValue.str "x") [] rfl (by decide)

end Rod
